import Mathlib

/-! Shallow embedding of `src/core/state.cpp` of chunkwm: the window/application
registry core. Global mutable state (`Windows`, `Applications`, the active
observer-notification subscriptions, events posted via `ConstructEvent`, and
records released via `AXLibDestroyWindow` / `AXLibDestroyApplication`) is
modelled as an explicit state record threaded through the operations; the
external accessibility API (AXLib*) is modelled as a deterministic
environment of oracles.
-/

namespace ChunkWM

/-- A `macos_window` record: numeric CGWindowID, the opaque `AXUIElementRef`
(modelled as a numeric handle, unique per OS window), the owning
application's PID (`Window->Owner`), and the window title. -/
structure WindowRecord where
  id : Nat
  ref : Nat
  ownerPid : Nat
  name : String
deriving DecidableEq

/-- A `macos_application` record: PID and process name. -/
structure AppRecord where
  pid : Nat
  name : String
deriving DecidableEq

/-- The event kinds passed to `ConstructEvent` in `state.cpp`. -/
inductive EventKind where
  | windowCreated
  | windowDestroyed
  | windowFocused
  | windowMoved
  | windowResized
  | windowMinimized
  | windowDeminimized
  | windowTitleChanged
deriving DecidableEq

/-- An event posted to the dispatch subsystem: kind plus the window record
passed as payload. -/
structure Event where
  kind : EventKind
  payload : WindowRecord
deriving DecidableEq

/-- The notification kinds the observer callback dispatches on
(`kAXWindowCreatedNotification`, `kAXUIElementDestroyedNotification`, ...). -/
inductive NotifKind where
  | created
  | destroyed
  | focused
  | moved
  | resized
  | minimized
  | deminimized
  | titleChanged
deriving DecidableEq

/-- The untyped `void *Reference` the OS hands back to the callback: the
owning application for application-level subscriptions, the window itself
for the per-window destroyed subscription. -/
inductive NotifRef where
  | app (a : AppRecord)
  | win (w : WindowRecord)
deriving DecidableEq

def NotifRef.asApp : NotifRef → AppRecord
  | .app a => a
  | .win w => ⟨w.ownerPid, ""⟩

def NotifRef.asWin : NotifRef → WindowRecord
  | .win w => w
  | .app a => ⟨0, 0, a.pid, ""⟩

/-- Deterministic oracles for the external accessibility API used by
`state.cpp`. -/
structure Env where
  /-- Result of `AXLibAddObserverNotification(&Owner->Observer, Ref,
  kAXUIElementDestroyedNotification, Window)` for this window. -/
  subscribeOk : WindowRecord → Bool
  /-- Models `AXLibWindowListForApplication`; `none` models a NULL list. -/
  windowList : AppRecord → Option (List WindowRecord)
  /-- Models `AXLibGetWindowID` on an element handle. -/
  windowIdOfElement : Nat → Nat
  /-- Models `AXLibConstructWindow(Application, Element)`. -/
  constructWindow : AppRecord → Nat → WindowRecord
  /-- Models `AXLibConstructApplication(PSN, PID, ProcessName)`. -/
  constructApp : Nat → String → AppRecord
  /-- Result of `pthread_mutex_init(&WindowsLock, NULL) == 0`. -/
  mutexInitOk : Bool
  /-- Models `AXLibRunningProcesses(ProcessPolicy)`. -/
  runningProcesses : List AppRecord
  /-- Result of `AXLibAddApplicationObserver(Application, Callback)`. -/
  appObserverOk : AppRecord → Bool
  /-- Models `AXLibGetWindowTitle` on an element handle. -/
  titleOf : Nat → String

/-- The global mutable state of `state.cpp`, made explicit:
`Windows` (the Window Registry), `Applications` (the Application Registry,
a key-ordered map iterated by `UpdateWindowCollection`, kept as an
association list), the multiset of active destroy-notification
subscriptions (keyed by window `ref`), the records released via
`AXLibDestroyWindow` / `AXLibDestroyApplication`, the PIDs with a
successfully attached application observer, the events posted via
`ConstructEvent` (most recent first), and the printf log. -/
structure WMState where
  windows : Nat → Option WindowRecord
  apps : List (Nat × AppRecord)
  subs : List Nat
  destroyedWindows : List WindowRecord
  destroyedApps : List AppRecord
  observed : List Nat
  events : List Event
  log : List String

/-- The state at program start: both registries empty, nothing subscribed,
destroyed, observed, posted or logged. -/
def emptyState : WMState where
  windows := fun _ => none
  apps := []
  subs := []
  destroyedWindows := []
  destroyedApps := []
  observed := []
  events := []
  log := []

/-- Embeds `ConstructEvent(Kind, Window)`: posts an event to the dispatch
subsystem. -/
def ConstructEvent (s : WMState) (k : EventKind) (w : WindowRecord) : WMState :=
  { s with events := ⟨k, w⟩ :: s.events }

/-- Embeds `AXLibDestroyWindow(Window)`: releases the window record. -/
def destroyWindow (s : WMState) (w : WindowRecord) : WMState :=
  { s with destroyedWindows := w :: s.destroyedWindows }

/-- Embeds `GetWindowByID(Id)`: lock, `Windows.find(Id)`, unlock; `NULL` when
absent. -/
def GetWindowByID (s : WMState) (id : Nat) : Option WindowRecord :=
  s.windows id

/-- Embeds `AddWindowToCollection(Window)`: rejects id 0; subscribes the
destroy-notification for the window's ref; on subscription success inserts
`Windows[Window->Id] = Window` under the lock. Returns the success flag and
the new state. -/
def AddWindowToCollection (env : Env) (s : WMState) (w : WindowRecord) :
    Bool × WMState :=
  if w.id = 0 then
    (false, s)
  else if env.subscribeOk w then
    (true, { s with
              subs := w.ref :: s.subs,
              windows := fun i => if i = w.id then some w else s.windows i })
  else
    (false, s)

/-- Embeds `RemoveWindowFromCollection(Window)`: erases `Windows[Window->Id]` under
the lock, then unsubscribes the window's destroy-notification
(`AXLibRemoveObserverNotification` removes one subscription for this
ref). -/
def RemoveWindowFromCollection (s : WMState) (w : WindowRecord) : WMState :=
  { s with
     windows := fun i => if i = w.id then none else s.windows i,
     subs := s.subs.erase w.ref }

/-- Embeds `UpdateWindowTitle(Window)`: frees the old name and replaces it with
`AXLibGetWindowTitle(Window->Ref)`. -/
def UpdateWindowTitle (env : Env) (w : WindowRecord) : WindowRecord :=
  { w with name := env.titleOf w.ref }

/-- The loop body of `AddApplicationWindowsToCollection` for one enumerated
window: a window whose id is already registered is a duplicate and is
destroyed; otherwise `AddWindowToCollection` is attempted and on failure the
window is logged and destroyed. -/
def discoverStep (env : Env) (s : WMState) (w : WindowRecord) : WMState :=
  if (GetWindowByID s w.id).isSome then
    destroyWindow s w
  else
    let r := AddWindowToCollection env s w
    if r.1 then
      r.2
    else
      destroyWindow
        { r.2 with log := "is not destructible, ignore!" :: r.2.log } w

/-- Embeds `AddApplicationWindowsToCollection(Application)`: enumerates the
application's windows and runs `discoverStep` on each, in list order; a
NULL window list does nothing. -/
def AddApplicationWindowsToCollection (env : Env) (s : WMState)
    (a : AppRecord) : WMState :=
  match env.windowList a with
  | none => s
  | some ws => ws.foldl (discoverStep env) s

/-- Embeds `GetApplicationFromPID(PID)`: `Applications.find(PID)`. -/
def GetApplicationFromPID (s : WMState) (pid : Nat) : Option AppRecord :=
  (s.apps.find? (fun e => e.1 = pid)).map (·.2)

/-- Embeds `AddApplication(Application)`: inserts into `Applications` only when the
PID is not already present. -/
def AddApplication (s : WMState) (a : AppRecord) : WMState :=
  if (GetApplicationFromPID s a.pid).isSome then s
  else { s with apps := (a.pid, a) :: s.apps }

/-- Embeds `AXLibDestroyApplication(Application)`: releases the application record
and its observer resources. -/
def destroyApp (s : WMState) (a : AppRecord) : WMState :=
  { s with destroyedApps := a :: s.destroyedApps }

/-- Embeds `RemoveAndDestroyApplication(Application)`: erases the PID from
`Applications` when present, then destroys the application record. -/
def RemoveAndDestroyApplication (s : WMState) (a : AppRecord) : WMState :=
  let s' :=
    if (GetApplicationFromPID s a.pid).isSome then
      { s with apps := s.apps.filter (fun e => e.1 ≠ a.pid) }
    else s
  destroyApp s' a

/-- Embeds `ApplicationCallback`: the observer callback, dispatching on the
notification kind. `created` constructs a window from the owning application
and the element and posts `ChunkWM_WindowCreated`; `destroyed` takes the
window record straight from the per-window `Reference`; every other kind
resolves the element to a CGWindowID, looks it up in the registry and, only
when found, posts the corresponding event with the registered record. -/
def ApplicationCallback (env : Env) (s : WMState) (k : NotifKind)
    (element : Nat) (reference : NotifRef) : WMState :=
  match k with
  | .created =>
      let w := env.constructWindow reference.asApp element
      ConstructEvent s .windowCreated w
  | .destroyed =>
      ConstructEvent s .windowDestroyed reference.asWin
  | .focused =>
      match GetWindowByID s (env.windowIdOfElement element) with
      | some w => ConstructEvent s .windowFocused w
      | none => s
  | .moved =>
      match GetWindowByID s (env.windowIdOfElement element) with
      | some w => ConstructEvent s .windowMoved w
      | none => s
  | .resized =>
      match GetWindowByID s (env.windowIdOfElement element) with
      | some w => ConstructEvent s .windowResized w
      | none => s
  | .minimized =>
      match GetWindowByID s (env.windowIdOfElement element) with
      | some w => ConstructEvent s .windowMinimized w
      | none => s
  | .deminimized =>
      match GetWindowByID s (env.windowIdOfElement element) with
      | some w => ConstructEvent s .windowDeminimized w
      | none => s
  | .titleChanged =>
      match GetWindowByID s (env.windowIdOfElement element) with
      | some w => ConstructEvent s .windowTitleChanged w
      | none => s

/-- Embeds `AXLibAddApplicationObserver(Application, ApplicationCallback)`: on
success the application's notifications are observed from now on; the
caller sees the success flag. -/
def attachObserverQuiet (env : Env) (s : WMState) (a : AppRecord) : WMState :=
  if env.appObserverOk a then { s with observed := a.pid :: s.observed }
  else s

/-- The observer-attachment step of `ConstructAndAddApplication`: on
success the PID is recorded as observed and one line is logged; on failure
three warning lines are logged. -/
def attachObserver (env : Env) (s : WMState) (a : AppRecord) : WMState :=
  if env.appObserverOk a then
    { s with
       observed := a.pid :: s.observed,
       log := "registered window notifications" :: s.log }
  else
    { s with
       log := "could not register window notifications!!!" ::
              "could not register window notifications!!!" ::
              "could not register window notifications!!!" :: s.log }

/-- Embeds `ConstructAndAddApplication(PSN, PID, ProcessName)`: constructs the
application record, adds it to the Application Registry, sleeps, attaches
the observer (non-fatal on failure) and discovers the application's
windows; returns the record. -/
def ConstructAndAddApplication (env : Env) (s : WMState) (pid : Nat)
    (processName : String) : WMState × AppRecord :=
  let a := env.constructApp pid processName
  let s1 := AddApplication s a
  let s2 := attachObserver env s1 a
  (AddApplicationWindowsToCollection env s2 a, a)

/-- Embeds `UpdateWindowCollection()`: re-runs window discovery for every
application in the Application Registry, in iteration order. -/
def UpdateWindowCollection (env : Env) (s : WMState) : WMState :=
  s.apps.foldl (fun t e => AddApplicationWindowsToCollection env t e.2) s

/-- Embeds `InitState()`: initializes the `WindowsLock` mutex; only when that
succeeds, enumerates running processes and, for each, registers it,
attaches the observer (result ignored) and discovers its windows. Returns
whether the mutex was initialized. -/
def InitState (env : Env) (s : WMState) : Bool × WMState :=
  if env.mutexInitOk then
    (true,
     env.runningProcesses.foldl
       (fun t a =>
         AddApplicationWindowsToCollection env
           (attachObserverQuiet env (AddApplication t a) a) a)
       s)
  else
    (false, s)

/-- Modelled from the spec: the handler of the `ChunkWM_WindowCreated`
event lives in the event-dispatch subsystem (`src/core/dispatch`), which is
not under `src/`; per the spec's dispatch table a window-created
notification receives "discovery-style admission": if the identifier
already exists in the Window Registry the just-discovered duplicate is
destroyed immediately, otherwise `Register` is attempted and on failure the
rejected window is logged and destroyed. -/
def WindowCreatedHandler (env : Env) (s : WMState) (w : WindowRecord) :
    WMState :=
  if (GetWindowByID s w.id).isSome then
    destroyWindow s w
  else
    let r := AddWindowToCollection env s w
    if r.1 then
      r.2
    else
      destroyWindow
        { r.2 with log := "is not destructible, ignore!" :: r.2.log } w

/-- The states reachable from program start through the operations of
`state.cpp` (and the spec-modelled window-created handler), under arbitrary
environments and arguments. -/
inductive Reachable : WMState → Prop where
  | boot : Reachable emptyState
  | initialState (env : Env) (s : WMState) :
      Reachable s → Reachable (InitState env s).2
  | addWindow (env : Env) (s : WMState) (w : WindowRecord) :
      Reachable s → Reachable (AddWindowToCollection env s w).2
  | removeWindow (s : WMState) (w : WindowRecord) :
      Reachable s → Reachable (RemoveWindowFromCollection s w)
  | discover (env : Env) (s : WMState) (a : AppRecord) :
      Reachable s → Reachable (AddApplicationWindowsToCollection env s a)
  | updateAll (env : Env) (s : WMState) :
      Reachable s → Reachable (UpdateWindowCollection env s)
  | constructAdd (env : Env) (s : WMState) (pid : Nat) (n : String) :
      Reachable s → Reachable (ConstructAndAddApplication env s pid n).1
  | removeApp (s : WMState) (a : AppRecord) :
      Reachable s → Reachable (RemoveAndDestroyApplication s a)
  | callback (env : Env) (s : WMState) (k : NotifKind) (elt : Nat)
      (r : NotifRef) :
      Reachable s → Reachable (ApplicationCallback env s k elt r)
  | createdHandler (env : Env) (s : WMState) (w : WindowRecord) :
      Reachable s → Reachable (WindowCreatedHandler env s w)

/-- The subscription invariant: every window in the Window Registry has
exactly one active destroy-notification subscription (counted by its
`AXUIElementRef`). -/
def SubInv (s : WMState) : Prop :=
  ∀ id w, s.windows id = some w → s.subs.count w.ref = 1

/-- Registered windows have pairwise distinct `AXUIElementRef` handles
(the OS issues one handle per live window). -/
def RefInj (s : WMState) : Prop :=
  ∀ id₁ id₂ w₁ w₂, s.windows id₁ = some w₁ → s.windows id₂ = some w₂ →
    w₁.ref = w₂.ref → id₁ = id₂

/-- The domain event a registry-resolving notification kind maps to; `none`
for the two kinds (`created`, `destroyed`) that do not resolve through the
registry. -/
def resolvedEvent : NotifKind → Option EventKind
  | .created => none
  | .destroyed => none
  | .focused => some .windowFocused
  | .moved => some .windowMoved
  | .resized => some .windowResized
  | .minimized => some .windowMinimized
  | .deminimized => some .windowDeminimized
  | .titleChanged => some .windowTitleChanged

/-- The primitive actions, in program order, that the registry functions
perform on `WindowsLock` and on the `Windows` map. -/
inductive LockAction where
  | lock
  | unlock
  | mapRead
  | mapWrite
  | mapErase
  | subscribe
  | unsubscribe
deriving DecidableEq

/-- Action trace of `GetWindowByID`: lock, `Windows.find`, unlock. -/
def GetWindowByIDTrace : List LockAction :=
  [.lock, .mapRead, .unlock]

/-- Action trace of `AddWindowToCollection`: nothing for id 0; otherwise the
subscription attempt, followed on success by lock, `Windows[Id] = Window`,
unlock. -/
def AddWindowToCollectionTrace (env : Env) (w : WindowRecord) :
    List LockAction :=
  if w.id = 0 then []
  else if env.subscribeOk w then [.subscribe, .lock, .mapWrite, .unlock]
  else [.subscribe]

/-- Action trace of `RemoveWindowFromCollection`: lock, `Windows.erase`,
unlock, unsubscribe. -/
def RemoveWindowFromCollectionTrace : List LockAction :=
  [.lock, .mapErase, .unlock, .unsubscribe]

/-- Checks that every map access in a trace happens while the lock is held,
starting from lock depth `d`. -/
def guardedAccesses : List LockAction → Nat → Bool
  | [], _ => true
  | .lock :: r, d => guardedAccesses r (d + 1)
  | .unlock :: r, d => decide (0 < d) && guardedAccesses r (d - 1)
  | .mapRead :: r, d => decide (0 < d) && guardedAccesses r d
  | .mapWrite :: r, d => decide (0 < d) && guardedAccesses r d
  | .mapErase :: r, d => decide (0 < d) && guardedAccesses r d
  | .subscribe :: r, d => guardedAccesses r d
  | .unsubscribe :: r, d => guardedAccesses r d

/-- Net lock depth after a trace, starting from depth `d`. -/
def lockDepth : List LockAction → Nat → Nat
  | [], d => d
  | .lock :: r, d => lockDepth r (d + 1)
  | .unlock :: r, d => lockDepth r (d - 1)
  | _ :: r, d => lockDepth r d

/-! Concrete fixtures used by the witness theorems. -/

def wA : WindowRecord := ⟨5, 100, 1, "a"⟩

def wB : WindowRecord := ⟨5, 101, 1, "b"⟩

def aA : AppRecord := ⟨1, "app"⟩

def envA : Env where
  subscribeOk := fun _ => true
  windowList := fun _ => some [wA]
  windowIdOfElement := fun _ => 5
  constructWindow := fun a e => ⟨5, e, a.pid, "c"⟩
  constructApp := fun p n => ⟨p, n⟩
  mutexInitOk := true
  runningProcesses := [aA]
  appObserverOk := fun _ => true
  titleOf := fun _ => "t"

/-- Environment `envA` with a failing mutex init. -/
def envB : Env := { envA with mutexInitOk := false }

/-- Environment `envA` with every destroy-notification subscription failing. -/
def envC : Env := { envA with subscribeOk := fun _ => false }

/-- A state with `wA` registered (and its subscription active). -/
def sA : WMState := (AddWindowToCollection envA emptyState wA).2

/-! Frame lemmas: which state fields each operation leaves untouched. -/

lemma windows_destroyWindow (s : WMState) (w : WindowRecord) :
    (destroyWindow s w).windows = s.windows := rfl

lemma windows_ConstructEvent (s : WMState) (k : EventKind)
    (w : WindowRecord) : (ConstructEvent s k w).windows = s.windows := rfl

lemma windows_AddApplication (s : WMState) (a : AppRecord) :
    (AddApplication s a).windows = s.windows := by
  unfold AddApplication; split <;> rfl

lemma windows_attachObserverQuiet (env : Env) (s : WMState) (a : AppRecord) :
    (attachObserverQuiet env s a).windows = s.windows := by
  unfold attachObserverQuiet; split <;> rfl

lemma windows_attachObserver (env : Env) (s : WMState) (a : AppRecord) :
    (attachObserver env s a).windows = s.windows := by
  unfold attachObserver; split <;> rfl

lemma windows_removeAndDestroyApplication (s : WMState) (a : AppRecord) :
    (RemoveAndDestroyApplication s a).windows = s.windows := by
  unfold RemoveAndDestroyApplication destroyApp; split <;> rfl

lemma destroyedWindows_removeAndDestroyApplication (s : WMState)
    (a : AppRecord) :
    (RemoveAndDestroyApplication s a).destroyedWindows
      = s.destroyedWindows := by
  unfold RemoveAndDestroyApplication destroyApp; split <;> rfl

lemma destroyedApps_removeAndDestroyApplication (s : WMState)
    (a : AppRecord) :
    (RemoveAndDestroyApplication s a).destroyedApps
      = a :: s.destroyedApps := by
  unfold RemoveAndDestroyApplication destroyApp; split <;> rfl

lemma windows_applicationCallback (env : Env) (s : WMState) (k : NotifKind)
    (elt : Nat) (r : NotifRef) :
    (ApplicationCallback env s k elt r).windows = s.windows := by
  cases k <;> simp only [ApplicationCallback] <;>
    first
      | rfl
      | (cases GetWindowByID s (env.windowIdOfElement elt) <;> rfl)

/-! Behaviour of the discovery loop body on one window. -/

lemma discoverStep_of_dup (env : Env) (s : WMState) (w : WindowRecord)
    (h : (GetWindowByID s w.id).isSome) :
    discoverStep env s w = destroyWindow s w := by
  simp [discoverStep, h]

lemma addWindow_fst_false (env : Env) (s : WMState) (w : WindowRecord)
    (hrej : w.id = 0 ∨ env.subscribeOk w = false) :
    (AddWindowToCollection env s w).1 = false
      ∧ (AddWindowToCollection env s w).2 = s := by
  rcases hrej with h0 | hs
  · simp [AddWindowToCollection, h0]
  · by_cases h0 : w.id = 0 <;> simp [AddWindowToCollection, h0, hs]

lemma addWindow_fst_true (env : Env) (s : WMState) (w : WindowRecord)
    (h0 : w.id ≠ 0) (hs : env.subscribeOk w = true) :
    (AddWindowToCollection env s w).1 = true
      ∧ (AddWindowToCollection env s w).2
          = { s with
               subs := w.ref :: s.subs,
               windows := fun i => if i = w.id then some w else s.windows i } := by
  simp [AddWindowToCollection, h0, hs]

lemma discoverStep_of_reject (env : Env) (s : WMState) (w : WindowRecord)
    (h : GetWindowByID s w.id = none)
    (hrej : w.id = 0 ∨ env.subscribeOk w = false) :
    (discoverStep env s w).windows = s.windows
      ∧ w ∈ (discoverStep env s w).destroyedWindows := by
  have hfst := addWindow_fst_false env s w hrej
  simp [discoverStep, h, hfst.1, hfst.2, destroyWindow]

lemma discoverStep_of_insert (env : Env) (s : WMState) (w : WindowRecord)
    (h : GetWindowByID s w.id = none) (h0 : w.id ≠ 0)
    (hs : env.subscribeOk w = true) :
    (discoverStep env s w).windows
      = fun i => if i = w.id then some w else s.windows i := by
  have hfst := addWindow_fst_true env s w h0 hs
  simp [discoverStep, h, hfst.1, hfst.2]

/-! Preservation of "id 0 is not a registry key" by every operation. -/

lemma zeroFree_addWindow (env : Env) (s : WMState) (w : WindowRecord)
    (h : s.windows 0 = none) :
    (AddWindowToCollection env s w).2.windows 0 = none := by
  by_cases h0 : w.id = 0
  · simpa [(addWindow_fst_false env s w (Or.inl h0)).2] using h
  · by_cases hs : env.subscribeOk w = true
    · rw [(addWindow_fst_true env s w h0 hs).2]
      show (if (0 : Nat) = w.id then some w else s.windows 0) = none
      rw [if_neg (fun hh => h0 hh.symm)]
      exact h
    · simpa [(addWindow_fst_false env s w
        (Or.inr (by simpa using hs))).2] using h

lemma zeroFree_discoverStep (env : Env) (s : WMState) (w : WindowRecord)
    (h : s.windows 0 = none) :
    (discoverStep env s w).windows 0 = none := by
  by_cases hdup : (GetWindowByID s w.id).isSome
  · rw [discoverStep_of_dup env s w hdup]
    exact h
  · have hn : GetWindowByID s w.id = none :=
      Option.not_isSome_iff_eq_none.mp hdup
    by_cases h0 : w.id = 0
    · rw [(discoverStep_of_reject env s w hn (Or.inl h0)).1]; exact h
    · by_cases hs : env.subscribeOk w = true
      · rw [discoverStep_of_insert env s w hn h0 hs]
        show (if (0 : Nat) = w.id then some w else s.windows 0) = none
        rw [if_neg (fun hh => h0 hh.symm)]
        exact h
      · rw [(discoverStep_of_reject env s w hn
          (Or.inr (by simpa using hs))).1]
        exact h

lemma zeroFree_foldDiscover (env : Env) :
    ∀ (ws : List WindowRecord) (s : WMState), s.windows 0 = none →
      (ws.foldl (discoverStep env) s).windows 0 = none
  | [], _, h => h
  | w :: ws, s, h =>
      zeroFree_foldDiscover env ws _ (zeroFree_discoverStep env s w h)

lemma zeroFree_discover (env : Env) (s : WMState) (a : AppRecord)
    (h : s.windows 0 = none) :
    (AddApplicationWindowsToCollection env s a).windows 0 = none := by
  unfold AddApplicationWindowsToCollection
  cases hl : env.windowList a with
  | none => exact h
  | some ws => exact zeroFree_foldDiscover env ws s h

lemma zeroFree_foldUpdate (env : Env) :
    ∀ (l : List (Nat × AppRecord)) (t : WMState), t.windows 0 = none →
      ((l.foldl
          (fun t e => AddApplicationWindowsToCollection env t e.2) t).windows 0
        = none)
  | [], _, h => h
  | e :: l, t, h =>
      zeroFree_foldUpdate env l _ (zeroFree_discover env t e.2 h)

lemma zeroFree_foldInit (env : Env) :
    ∀ (l : List AppRecord) (t : WMState), t.windows 0 = none →
      ((l.foldl
          (fun t a =>
            AddApplicationWindowsToCollection env
              (attachObserverQuiet env (AddApplication t a) a) a) t).windows 0
        = none)
  | [], _, h => h
  | a :: l, t, h =>
      zeroFree_foldInit env l _
        (zeroFree_discover env _ a
          (by rw [windows_attachObserverQuiet, windows_AddApplication]
              exact h))

lemma zeroFree_reachable (s : WMState) (h : Reachable s) :
    s.windows 0 = none := by
  induction h with
  | boot => rfl
  | initialState env s _ ih =>
      unfold InitState
      cases hm : env.mutexInitOk
      · simpa [hm] using ih
      · simp only [hm, if_true]
        exact zeroFree_foldInit env env.runningProcesses s ih
  | addWindow env s w _ ih => exact zeroFree_addWindow env s w ih
  | removeWindow s w _ ih =>
      show (if (0 : Nat) = w.id then none else s.windows 0) = none
      split <;> simp [ih]
  | discover env s a _ ih => exact zeroFree_discover env s a ih
  | updateAll env s _ ih => exact zeroFree_foldUpdate env s.apps s ih
  | constructAdd env s pid n _ ih =>
      exact zeroFree_discover env _ _
        (by rw [windows_attachObserver, windows_AddApplication]; exact ih)
  | removeApp s a _ ih =>
      rw [windows_removeAndDestroyApplication]; exact ih
  | callback env s k elt r _ ih =>
      rw [windows_applicationCallback]; exact ih
  | createdHandler env s w _ ih =>
      show (discoverStep env s w).windows 0 = none
      exact zeroFree_discoverStep env s w ih

lemma find?_filter_ne_none (l : List (Nat × AppRecord)) (p : Nat) :
    (l.filter (fun e => e.1 ≠ p)).find? (fun e => e.1 = p) = none := by
  rw [List.find?_eq_none]
  intro x hx
  have hmem := List.of_mem_filter hx
  simp only [decide_eq_true_eq] at hmem ⊢
  exact hmem

lemma getApplication_after_remove (s : WMState) (a : AppRecord) :
    GetApplicationFromPID (RemoveAndDestroyApplication s a) a.pid = none := by
  unfold RemoveAndDestroyApplication destroyApp
  by_cases h : (GetApplicationFromPID s a.pid).isSome
  · simp only [h, if_true]
    show ((s.apps.filter (fun e => e.1 ≠ a.pid)).find?
        (fun e => e.1 = a.pid)).map (·.2) = none
    rw [find?_filter_ne_none]
    rfl
  · simp only [h, if_false]
    exact Option.not_isSome_iff_eq_none.mp h

lemma addWindow_fail_iff (env : Env) (s : WMState) (w : WindowRecord) :
    (AddWindowToCollection env s w).1 = false ↔
      (w.id = 0 ∨ env.subscribeOk w = false) := by
  constructor
  · intro hf
    by_cases h0 : w.id = 0
    · exact Or.inl h0
    · by_cases hs : env.subscribeOk w = true
      · rw [(addWindow_fst_true env s w h0 hs).1] at hf
        exact absurd hf (by simp)
      · exact Or.inr (by simpa using hs)
  · intro hrej
    exact (addWindow_fst_false env s w hrej).1

lemma addWindow_success_lookup (env : Env) (s : WMState) (w : WindowRecord)
    (ht : (AddWindowToCollection env s w).1 = true) :
    GetWindowByID (AddWindowToCollection env s w).2 w.id = some w := by
  by_cases h0 : w.id = 0
  · exact absurd ((addWindow_fst_false env s w (Or.inl h0)).1 ▸ ht) (by simp)
  · by_cases hs : env.subscribeOk w = true
    · rw [(addWindow_fst_true env s w h0 hs).2]
      show (if w.id = w.id then some w else s.windows w.id) = some w
      rw [if_pos rfl]
    · exact absurd
        ((addWindow_fst_false env s w (Or.inr (by simpa using hs))).1 ▸ ht)
        (by simp)

/-- C2: `AddWindowToCollection` fails exactly when the id is 0 or the
destroy-notification subscription fails; every failure leaves the state
(in particular the Window Registry) unchanged; success inserts the record
under its identifier; and id 0 is never a key of the Window Registry in
any reachable state. -/
theorem addWindowToCollection_contract (env : Env) (s : WMState)
    (w : WindowRecord) :
    ((AddWindowToCollection env s w).1 = false ↔
       (w.id = 0 ∨ env.subscribeOk w = false))
  ∧ ((AddWindowToCollection env s w).1 = false →
       (AddWindowToCollection env s w).2 = s)
  ∧ ((AddWindowToCollection env s w).1 = true →
       GetWindowByID (AddWindowToCollection env s w).2 w.id = some w)
  ∧ (Reachable s → GetWindowByID s 0 = none) := by
  refine ⟨addWindow_fail_iff env s w, ?_, addWindow_success_lookup env s w,
    zeroFree_reachable s⟩
  intro hf
  exact (addWindow_fst_false env s w ((addWindow_fail_iff env s w).mp hf)).2

/-- Witness for C2: with every subscription failing, registering `wA` into
the empty state fails and changes nothing; and the reachable state `sA` has
no entry at id 0. -/
theorem addWindowToCollection_contract_witness :
    (AddWindowToCollection envC emptyState wA).1 = false
  ∧ (AddWindowToCollection envC emptyState wA).2 = emptyState
  ∧ GetWindowByID sA 0 = none :=
  ⟨(addWindowToCollection_contract envC emptyState wA).1.mpr (Or.inr rfl),
   (addWindowToCollection_contract envC emptyState wA).2.1
     ((addWindowToCollection_contract envC emptyState wA).1.mpr (Or.inr rfl)),
   (addWindowToCollection_contract envA sA wA).2.2.2
     (Reachable.addWindow envA emptyState wA Reachable.boot)⟩

/-- C7: `RemoveAndDestroyApplication` removes the PID from the Application
Registry (so `GetApplicationFromPID` returns nothing afterwards) and
destroys the application record, while the Window Registry and the set of
destroyed windows are untouched. -/
theorem removeAndDestroyApplication_contract (s : WMState) (a : AppRecord) :
    GetApplicationFromPID (RemoveAndDestroyApplication s a) a.pid = none
  ∧ (RemoveAndDestroyApplication s a).windows = s.windows
  ∧ (RemoveAndDestroyApplication s a).destroyedWindows = s.destroyedWindows
  ∧ (RemoveAndDestroyApplication s a).destroyedApps = a :: s.destroyedApps :=
  ⟨getApplication_after_remove s a,
   windows_removeAndDestroyApplication s a,
   destroyedWindows_removeAndDestroyApplication s a,
   destroyedApps_removeAndDestroyApplication s a⟩

/-- C8: `InitState` returns exactly the mutex-initialization result, and
when the mutex cannot be initialized the state is untouched (nothing is
enumerated, registered or observed); observer or registration failures
cannot change the return value, which depends only on `mutexInitOk`. -/
theorem initState_contract (env : Env) (s : WMState) :
    (InitState env s).1 = env.mutexInitOk
  ∧ (env.mutexInitOk = false → (InitState env s).2 = s) := by
  unfold InitState
  cases hm : env.mutexInitOk <;> simp [hm]

/-- Witness for C8: with a failing mutex init, `InitState` reports failure
and leaves the empty state untouched. -/
theorem initState_contract_witness :
    envB.mutexInitOk = false
  ∧ (InitState envB emptyState).1 = envB.mutexInitOk
  ∧ (InitState envB emptyState).2 = emptyState :=
  ⟨rfl, (initState_contract envB emptyState).1,
   (initState_contract envB emptyState).2 rfl⟩

/-- C10: `AddWindowToCollection` performs no duplicate check: any window
with a nonzero id whose subscription succeeds is registered, and the entry
previously stored under that identifier (if any) is overwritten. -/
theorem addWindowToCollection_overwrites (env : Env) (s : WMState)
    (w : WindowRecord) (h0 : w.id ≠ 0) (hs : env.subscribeOk w = true) :
    (AddWindowToCollection env s w).1 = true
  ∧ GetWindowByID (AddWindowToCollection env s w).2 w.id = some w := by
  have h := addWindow_fst_true env s w h0 hs
  exact ⟨h.1, addWindow_success_lookup env s w h.1⟩

/-- Witness for C10: `sA` already holds `wA` under id 5; registering the
distinct record `wB` with the same id succeeds and replaces the entry. -/
theorem addWindowToCollection_overwrites_witness :
    wB.id ≠ 0 ∧ envA.subscribeOk wB = true
  ∧ GetWindowByID sA wB.id = some wA ∧ wA ≠ wB
  ∧ (AddWindowToCollection envA sA wB).1 = true
  ∧ GetWindowByID (AddWindowToCollection envA sA wB).2 wB.id = some wB :=
  ⟨by decide, rfl, by decide, by decide,
   (addWindowToCollection_overwrites envA sA wB (by decide) rfl).1,
   (addWindowToCollection_overwrites envA sA wB (by decide) rfl).2⟩

/-- C4: for every notification kind that resolves through the Window
Registry (focused, moved, resized, minimized, deminimized, title-changed),
an unknown resolved identifier makes the callback a no-op on the whole
state (no event, both registries unchanged), and a known identifier makes
it post exactly the corresponding event with the registered record as
payload. -/
theorem applicationCallback_resolution (env : Env) (s : WMState)
    (k : NotifKind) (elt : Nat) (r : NotifRef) (ek : EventKind)
    (hk : resolvedEvent k = some ek) :
    (GetWindowByID s (env.windowIdOfElement elt) = none →
       ApplicationCallback env s k elt r = s)
  ∧ (∀ w, GetWindowByID s (env.windowIdOfElement elt) = some w →
       ApplicationCallback env s k elt r = ConstructEvent s ek w) := by
  cases k with
  | created => exact absurd hk (by simp [resolvedEvent])
  | destroyed => exact absurd hk (by simp [resolvedEvent])
  | focused =>
      simp only [resolvedEvent, Option.some.injEq] at hk
      subst hk
      exact ⟨fun h => by simp [ApplicationCallback, h],
             fun w h => by simp [ApplicationCallback, h]⟩
  | moved =>
      simp only [resolvedEvent, Option.some.injEq] at hk
      subst hk
      exact ⟨fun h => by simp [ApplicationCallback, h],
             fun w h => by simp [ApplicationCallback, h]⟩
  | resized =>
      simp only [resolvedEvent, Option.some.injEq] at hk
      subst hk
      exact ⟨fun h => by simp [ApplicationCallback, h],
             fun w h => by simp [ApplicationCallback, h]⟩
  | minimized =>
      simp only [resolvedEvent, Option.some.injEq] at hk
      subst hk
      exact ⟨fun h => by simp [ApplicationCallback, h],
             fun w h => by simp [ApplicationCallback, h]⟩
  | deminimized =>
      simp only [resolvedEvent, Option.some.injEq] at hk
      subst hk
      exact ⟨fun h => by simp [ApplicationCallback, h],
             fun w h => by simp [ApplicationCallback, h]⟩
  | titleChanged =>
      simp only [resolvedEvent, Option.some.injEq] at hk
      subst hk
      exact ⟨fun h => by simp [ApplicationCallback, h],
             fun w h => by simp [ApplicationCallback, h]⟩

/-- Witness for C4: a focus notification resolving to the registered id 5
posts exactly `WindowFocused` with `wA`; one resolving to the unknown id 5
in the empty registry leaves the empty state untouched. -/
theorem applicationCallback_resolution_witness :
    resolvedEvent .focused = some .windowFocused
  ∧ GetWindowByID sA (envA.windowIdOfElement 3) = some wA
  ∧ ApplicationCallback envA sA .focused 3 (.app aA)
      = ConstructEvent sA .windowFocused wA
  ∧ GetWindowByID emptyState (envA.windowIdOfElement 3) = none
  ∧ ApplicationCallback envA emptyState .focused 3 (.app aA) = emptyState :=
  ⟨rfl, by decide,
   (applicationCallback_resolution envA sA .focused 3 (.app aA)
      .windowFocused rfl).2 wA (by decide),
   rfl,
   (applicationCallback_resolution envA emptyState .focused 3 (.app aA)
      .windowFocused rfl).1 rfl⟩

/-- C5: on a window-created notification the callback constructs a window
record from the owning application and the element handle and posts exactly
one `WindowCreated` event carrying that record, touching neither registry;
the (spec-modelled) handler of that event then performs exactly the
discovery-style admission used by `AddApplicationWindowsToCollection`. -/
theorem windowCreated_flow (env : Env) (s : WMState) (a : AppRecord)
    (elt : Nat) :
    (ApplicationCallback env s .created elt (.app a)).events
      = ⟨.windowCreated, env.constructWindow a elt⟩ :: s.events
  ∧ (ApplicationCallback env s .created elt (.app a)).windows = s.windows
  ∧ (ApplicationCallback env s .created elt (.app a)).apps = s.apps
  ∧ (∀ t w, WindowCreatedHandler env t w = discoverStep env t w) :=
  ⟨rfl, rfl, rfl, fun _ _ => rfl⟩

lemma foldl_discover_frame (env : Env) :
    ∀ (ws : List WindowRecord) (s : WMState) (id : Nat),
      (s.windows id).isSome →
      (ws.foldl (discoverStep env) s).windows id = s.windows id := by
  intro ws
  induction ws with
  | nil => intro s id _; rfl
  | cons w ws ih =>
      intro s id h
      rw [List.foldl_cons]
      by_cases hdup : (GetWindowByID s w.id).isSome
      · rw [discoverStep_of_dup env s w hdup]
        exact ih (destroyWindow s w) id h
      · have hn : GetWindowByID s w.id = none :=
          Option.not_isSome_iff_eq_none.mp hdup
        by_cases h0 : w.id = 0
        · have hr := (discoverStep_of_reject env s w hn (Or.inl h0)).1
          rw [ih (discoverStep env s w) id (by rw [hr]; exact h), hr]
        · by_cases hs : env.subscribeOk w = true
          · have hw := discoverStep_of_insert env s w hn h0 hs
            have hne : id ≠ w.id := by
              intro he
              rw [he] at h
              exact absurd (show GetWindowByID s w.id ≠ none by
                simpa [Option.isSome_iff_ne_none] using h) (by simp [hn])
            have hstep : (discoverStep env s w).windows id = s.windows id := by
              rw [hw]; exact if_neg hne
            rw [ih (discoverStep env s w) id (by rw [hstep]; exact h), hstep]
          · have hr := (discoverStep_of_reject env s w hn
              (Or.inr (by simpa using hs))).1
            rw [ih (discoverStep env s w) id (by rw [hr]; exact h), hr]

lemma foldl_discover_isSome (env : Env) :
    ∀ (ws : List WindowRecord) (s : WMState) (id : Nat),
      (((ws.foldl (discoverStep env) s).windows id).isSome ↔
        ((s.windows id).isSome ∨
          ∃ w ∈ ws, w.id = id ∧ s.windows id = none ∧ id ≠ 0 ∧
            env.subscribeOk w = true)) := by
  intro ws
  induction ws with
  | nil => intro s id; simp
  | cons w ws ih =>
      intro s id
      rw [List.foldl_cons, ih]
      by_cases hdup : (GetWindowByID s w.id).isSome
      · rw [discoverStep_of_dup env s w hdup]
        simp only [windows_destroyWindow]
        constructor
        · rintro (h | ⟨w', hw', hrest⟩)
          · exact Or.inl h
          · exact Or.inr ⟨w', List.mem_cons_of_mem w hw', hrest⟩
        · rintro (h | ⟨w', hw', hid, hnone, hrest⟩)
          · exact Or.inl h
          · rcases List.mem_cons.mp hw' with he | hm
            · subst he
              rw [hid] at hdup
              exact absurd (show GetWindowByID s id = none from hnone)
                (by simpa [Option.isSome_iff_ne_none] using hdup)
            · exact Or.inr ⟨w', hm, hid, hnone, hrest⟩
      · have hn : GetWindowByID s w.id = none :=
          Option.not_isSome_iff_eq_none.mp hdup
        by_cases h0 : w.id = 0
        · have hr := (discoverStep_of_reject env s w hn (Or.inl h0)).1
          rw [hr]
          constructor
          · rintro (h | ⟨w', hw', hrest⟩)
            · exact Or.inl h
            · exact Or.inr ⟨w', List.mem_cons_of_mem w hw', hrest⟩
          · rintro (h | ⟨w', hw', hid, hnone, hne, hsub⟩)
            · exact Or.inl h
            · rcases List.mem_cons.mp hw' with he | hm
              · subst he
                exact absurd (hid ▸ h0) hne
              · exact Or.inr ⟨w', hm, hid, hnone, hne, hsub⟩
        · by_cases hs : env.subscribeOk w = true
          · have hw := discoverStep_of_insert env s w hn h0 hs
            by_cases hid : id = w.id
            · subst hid
              constructor
              · intro _
                exact Or.inr ⟨w, List.mem_cons_self w ws, rfl, hn, h0, hs⟩
              · intro _
                left
                rw [hw]
                simp
            · have hstep : (discoverStep env s w).windows id
                  = s.windows id := by
                rw [hw]; exact if_neg hid
              rw [hstep]
              constructor
              · rintro (h | ⟨w', hw', hrest⟩)
                · exact Or.inl h
                · exact Or.inr ⟨w', List.mem_cons_of_mem w hw', hrest⟩
              · rintro (h | ⟨w', hw', hid', hrest⟩)
                · exact Or.inl h
                · rcases List.mem_cons.mp hw' with he | hm
                  · subst he
                    exact absurd hid' (fun he' => hid (he'.symm))
                  · exact Or.inr ⟨w', hm, hid', hrest⟩
          · have hr := (discoverStep_of_reject env s w hn
              (Or.inr (by simpa using hs))).1
            rw [hr]
            constructor
            · rintro (h | ⟨w', hw', hrest⟩)
              · exact Or.inl h
              · exact Or.inr ⟨w', List.mem_cons_of_mem w hw', hrest⟩
            · rintro (h | ⟨w', hw', hid, hnone, hne, hsub⟩)
              · exact Or.inl h
              · rcases List.mem_cons.mp hw' with he | hm
                · subst he
                  exact absurd hsub (by simpa using hs)
                · exact Or.inr ⟨w', hm, hid, hnone, hne, hsub⟩

lemma foldl_discover_noop (env : Env) :
    ∀ (ws : List WindowRecord) (t : WMState),
      (∀ w ∈ ws, ((t.windows w.id).isSome ∨ w.id = 0 ∨
         env.subscribeOk w = false)) →
      (ws.foldl (discoverStep env) t).windows = t.windows := by
  intro ws
  induction ws with
  | nil => intro t _; rfl
  | cons w ws ih =>
      intro t hcond
      rw [List.foldl_cons]
      have hw := hcond w (List.mem_cons_self w ws)
      have hstep : (discoverStep env t w).windows = t.windows := by
        by_cases hdup : (GetWindowByID t w.id).isSome
        · rw [discoverStep_of_dup env t w hdup]
          exact windows_destroyWindow t w
        · have hn : GetWindowByID t w.id = none :=
            Option.not_isSome_iff_eq_none.mp hdup
          rcases hw with hdup' | hrej
          · exact absurd hdup' hdup
          · exact (discoverStep_of_reject env t w hn hrej).1
      have hcond' : ∀ w' ∈ ws,
          (((discoverStep env t w).windows w'.id).isSome ∨ w'.id = 0 ∨
            env.subscribeOk w' = false) := by
        intro w' hw'
        rw [hstep]
        exact hcond w' (List.mem_cons_of_mem w hw')
      rw [ih (discoverStep env t w) hcond', hstep]

lemma foldl_discover_covers (env : Env) (ws : List WindowRecord)
    (s : WMState) :
    ∀ w ∈ ws, (((ws.foldl (discoverStep env) s).windows w.id).isSome ∨
      w.id = 0 ∨ env.subscribeOk w = false) := by
  intro w hw
  by_cases h0 : w.id = 0
  · exact Or.inr (Or.inl h0)
  · by_cases hs : env.subscribeOk w = true
    · left
      by_cases hpre : (s.windows w.id).isSome
      · exact (foldl_discover_isSome env ws s w.id).mpr (Or.inl hpre)
      · exact (foldl_discover_isSome env ws s w.id).mpr
          (Or.inr ⟨w, hw, rfl, Option.not_isSome_iff_eq_none.mp hpre, h0, hs⟩)
    · exact Or.inr (Or.inr (by simpa using hs))

/-- C1: discovery reconciliation. Per enumerated window: an id already in
the registry makes the fresh duplicate be destroyed with the state
otherwise untouched; an inadmissible window (id 0 or failed subscription)
leaves the registry unchanged and is destroyed. Afterwards the prior
entries are intact and the registry holds an id exactly when it was there
before or some enumerated window carries it, it was new, nonzero, and its
subscription succeeds. -/
theorem discovery_reconciles (env : Env) (s : WMState) (a : AppRecord)
    (ws : List WindowRecord) (hl : env.windowList a = some ws) :
    (∀ id, (GetWindowByID s id).isSome →
       GetWindowByID (AddApplicationWindowsToCollection env s a) id
         = GetWindowByID s id)
  ∧ (∀ id,
       ((GetWindowByID (AddApplicationWindowsToCollection env s a) id).isSome
         ↔ ((GetWindowByID s id).isSome ∨
             ∃ w ∈ ws, w.id = id ∧ GetWindowByID s id = none ∧ id ≠ 0 ∧
               env.subscribeOk w = true)))
  ∧ (∀ t w, (GetWindowByID t w.id).isSome →
       discoverStep env t w = destroyWindow t w)
  ∧ (∀ t w, GetWindowByID t w.id = none →
       (w.id = 0 ∨ env.subscribeOk w = false) →
       ((discoverStep env t w).windows = t.windows ∧
         w ∈ (discoverStep env t w).destroyedWindows)) := by
  refine ⟨?_, ?_, discoverStep_of_dup env, discoverStep_of_reject env⟩
  · intro id h
    simp only [AddApplicationWindowsToCollection, hl]
    exact foldl_discover_frame env ws s id h
  · intro id
    simp only [AddApplicationWindowsToCollection, hl]
    exact foldl_discover_isSome env ws s id

/-- Witness for C1: discovering `aA`'s single window `wA` in the empty
state registers exactly id 5. -/
theorem discovery_reconciles_witness :
    envA.windowList aA = some [wA]
  ∧ ((GetWindowByID (AddApplicationWindowsToCollection envA emptyState aA)
        5).isSome
      ↔ ((GetWindowByID emptyState 5).isSome ∨
          ∃ w ∈ [wA], w.id = 5 ∧ GetWindowByID emptyState 5 = none ∧
            (5 : Nat) ≠ 0 ∧ envA.subscribeOk w = true)) :=
  ⟨rfl, (discovery_reconciles envA emptyState aA [wA] rfl).2.1 5⟩

/-- C6: running discovery twice in a row for the same application under
the same environment leaves the Window Registry exactly as the first run
left it. -/
theorem discovery_idempotent (env : Env) (s : WMState) (a : AppRecord) :
    (AddApplicationWindowsToCollection env
       (AddApplicationWindowsToCollection env s a) a).windows
      = (AddApplicationWindowsToCollection env s a).windows := by
  cases hl : env.windowList a with
  | none => simp only [AddApplicationWindowsToCollection, hl]
  | some ws =>
      simp only [AddApplicationWindowsToCollection, hl]
      exact foldl_discover_noop env ws _ (foldl_discover_covers env ws s)

/-- C9: in the action traces of `GetWindowByID`, `AddWindowToCollection`
and `RemoveWindowFromCollection`, every access to the `Windows` map occurs
while `WindowsLock` is held, and each trace releases the lock by its end. -/
theorem windowsLock_discipline :
    (guardedAccesses GetWindowByIDTrace 0 = true
      ∧ lockDepth GetWindowByIDTrace 0 = 0)
  ∧ (∀ env w, guardedAccesses (AddWindowToCollectionTrace env w) 0 = true
      ∧ lockDepth (AddWindowToCollectionTrace env w) 0 = 0)
  ∧ (guardedAccesses RemoveWindowFromCollectionTrace 0 = true
      ∧ lockDepth RemoveWindowFromCollectionTrace 0 = 0) := by
  refine ⟨⟨rfl, rfl⟩, ?_, rfl, rfl⟩
  intro env w
  unfold AddWindowToCollectionTrace
  by_cases h0 : w.id = 0
  · simp [h0, guardedAccesses, lockDepth]
  · by_cases hs : env.subscribeOk w <;>
      simp [h0, hs, guardedAccesses, lockDepth]

lemma addWindow_success_cases (env : Env) (s : WMState) (w : WindowRecord)
    (ht : (AddWindowToCollection env s w).1 = true) :
    w.id ≠ 0 ∧ env.subscribeOk w = true := by
  by_cases h0 : w.id = 0
  · exact absurd ((addWindow_fst_false env s w (Or.inl h0)).1 ▸ ht) (by simp)
  · by_cases hs : env.subscribeOk w = true
    · exact ⟨h0, hs⟩
    · exact absurd
        ((addWindow_fst_false env s w (Or.inr (by simpa using hs))).1 ▸ ht)
        (by simp)

/-- C3: successful registration adds exactly one destroy-notification
subscription for the window's ref and preserves the one-subscription-per-
registered-window invariant (given a fresh ref); unregistration removes the
registry entry and brings the window's subscription count to zero while
preserving the invariant (given that registered windows have distinct
refs). -/
theorem registration_subscription_bracket (env : Env) (s : WMState)
    (w : WindowRecord) :
    ((AddWindowToCollection env s w).1 = true →
       (AddWindowToCollection env s w).2.subs.count w.ref
         = s.subs.count w.ref + 1)
  ∧ (SubInv s → s.subs.count w.ref = 0 →
       (AddWindowToCollection env s w).1 = true →
       SubInv (AddWindowToCollection env s w).2)
  ∧ (s.windows w.id = some w → SubInv s → RefInj s →
       ((RemoveWindowFromCollection s w).windows w.id = none
        ∧ (RemoveWindowFromCollection s w).subs.count w.ref = 0
        ∧ SubInv (RemoveWindowFromCollection s w))) := by
  refine ⟨?_, ?_, ?_⟩
  · intro ht
    obtain ⟨h0, hs⟩ := addWindow_success_cases env s w ht
    rw [(addWindow_fst_true env s w h0 hs).2]
    exact List.count_cons_self w.ref s.subs
  · intro hinv hzero ht
    obtain ⟨h0, hs⟩ := addWindow_success_cases env s w ht
    rw [(addWindow_fst_true env s w h0 hs).2]
    intro id' w' hw'
    have hif : (if id' = w.id then some w else s.windows id') = some w' :=
      hw'
    show (w.ref :: s.subs).count w'.ref = 1
    by_cases hid : id' = w.id
    · rw [if_pos hid] at hif
      have hw'' : w' = w := by injection hif with h; exact h.symm
      subst hw''
      rw [List.count_cons_self, hzero]
    · rw [if_neg hid] at hif
      have h1 := hinv id' w' hif
      have hne : w'.ref ≠ w.ref := by
        intro he
        rw [he, hzero] at h1
        exact absurd h1 (by simp)
      rw [List.count_cons_of_ne hne]
      exact h1
  · intro hreg hinv hinj
    refine ⟨?_, ?_, ?_⟩
    · show (if w.id = w.id then none else s.windows w.id) = none
      rw [if_pos rfl]
    · show (s.subs.erase w.ref).count w.ref = 0
      rw [List.count_erase_self, hinv w.id w hreg]
    · intro id' w' hw'
      have hif : (if id' = w.id then none else s.windows id') = some w' :=
        hw'
      by_cases hid : id' = w.id
      · rw [if_pos hid] at hif
        exact absurd hif (by simp)
      · rw [if_neg hid] at hif
        have h1 := hinv id' w' hif
        have hne : w'.ref ≠ w.ref :=
          fun he => hid (hinj id' w.id w' w hif hreg he)
        show (s.subs.erase w.ref).count w'.ref = 1
        rw [List.count_erase_of_ne hne]
        exact h1

lemma sA_eq : sA = { emptyState with
    subs := [wA.ref],
    windows := fun i => if i = wA.id then some wA else none } := rfl

lemma subInv_sA : SubInv sA := by
  intro id w h
  by_cases hid : id = wA.id
  · have hw : w = wA := by
      rw [sA_eq] at h
      simp only [hid, if_pos rfl] at h
      exact (Option.some.injEq _ _ ▸ h).symm
    subst hw
    decide
  · exfalso
    rw [sA_eq] at h
    simp [hid] at h

lemma refInj_sA : RefInj sA := by
  intro id₁ id₂ w₁ w₂ h₁ h₂ _
  by_cases ha : id₁ = wA.id
  · by_cases hb : id₂ = wA.id
    · rw [ha, hb]
    · exfalso
      rw [sA_eq] at h₂
      simp [hb] at h₂
  · exfalso
    rw [sA_eq] at h₁
    simp [ha] at h₁

/-- Witness for C3: registering `wA` into the empty state adds exactly one
subscription for its ref; unregistering it from `sA` empties both the
registry entry and the subscription count. -/
theorem registration_subscription_bracket_witness :
    (AddWindowToCollection envA emptyState wA).1 = true
  ∧ (AddWindowToCollection envA emptyState wA).2.subs.count wA.ref
      = emptyState.subs.count wA.ref + 1
  ∧ sA.windows wA.id = some wA
  ∧ (RemoveWindowFromCollection sA wA).windows wA.id = none
  ∧ (RemoveWindowFromCollection sA wA).subs.count wA.ref = 0 :=
  ⟨rfl,
   (registration_subscription_bracket envA emptyState wA).1 rfl,
   by decide,
   ((registration_subscription_bracket envA sA wA).2.2
      (by decide) subInv_sA refInj_sA).1,
   ((registration_subscription_bracket envA sA wA).2.2
      (by decide) subInv_sA refInj_sA).2.1⟩

end ChunkWM
